import Mathlib

/-!
Shallow embedding of the Cube_API subscription lifecycle engine.

Conventions used throughout this development:
- Database rows live in explicit in-memory stores (`DB`): the `subscriptions`
  table is a list of `Subscription` rows and the auth user store is an
  association list from user id to the projection of `user_metadata` that the
  engine reads and writes (`plan`, `generation_balance`).
- Nullable SQL/JS values are `Option`; a JS `null`/`undefined` is `none`.
  Provider identifiers are non-empty strings, so a JS truthiness test on a
  nullable identifier (`x && ...`) is modelled as `Option.isSome`, and
  `a || b || null` on nullable identifiers as `Option.orElse`.
- Timestamps (`period_ends_at`, `new Date()`) are Nat milliseconds; the
  current time is threaded explicitly as `now`.
- Thrown JS exceptions are `Except.error`; every function returns its result
  together with the store as left behind at the point of return or throw.
  External-store write failures (`updateSubError` etc.) are not modelled:
  the store itself is assumed reliable.
- Supabase `.single()` fails on row counts other than one and `.maybeSingle()`
  fails on row counts above one; an `update(..).eq(..)` applies to every
  matching row before any such client-side failure is noticed.
-/

namespace CubeAPI

/-- Free-tier generation allowance, from `src/userUtils.ts`. -/
def FREE_GENERATION_LIMIT : Int := 3

/-- Hobbyist credit grant, from `src/userUtils.ts`. -/
def HOBBYIST_GENERATION_LIMIT : Int := 20

/-- A row of the `subscriptions` table. -/
structure Subscription where
  id : String
  user_id : String
  plan_name : String
  status : String
  dodo_subscription_id : Option String := none
  dodo_session_id : Option String := none
  period_ends_at : Option Nat := none
deriving Repr, DecidableEq

/-- The projection of a Supabase auth user's `user_metadata` that the engine
reads and rewrites. -/
structure UserMetadata where
  plan : Option String := none
  generation_balance : Option Int := none
deriving Repr, DecidableEq

/-- The external stores the engine mutates. -/
structure DB where
  subs : List Subscription
  meta : List (String × UserMetadata)
deriving Repr, DecidableEq

/-- `from('subscriptions').select().eq('id', i).single()`, as an optional row. -/
def findSubById (db : DB) (i : String) : Option Subscription :=
  db.subs.find? (fun s => s.id == i)

/-- `auth.admin.getUserById`, projected to the metadata the engine uses. -/
def getUserMeta (db : DB) (u : String) : Option UserMetadata :=
  (db.meta.find? (fun p => p.1 == u)).map Prod.snd

/-- `auth.admin.updateUserById u (user_metadata := m)`. -/
def setUserMeta (db : DB) (u : String) (m : UserMetadata) : DB :=
  { db with meta :=
      if (db.meta.find? (fun p => p.1 == u)).isSome then
        db.meta.map (fun p => if p.1 == u then (u, m) else p)
      else
        db.meta ++ [(u, m)] }

/-- `from('subscriptions').update(f).eq/match(p)`: rewrite every row matching
`p` with `f`. -/
def updateSubs (db : DB) (p : Subscription → Bool) (f : Subscription → Subscription) : DB :=
  { db with subs := db.subs.map (fun s => if p s then f s else s) }

/-- Supabase `.maybeSingle()`: zero rows is `none`, one row is returned, more
than one row is a query error. -/
def maybeSingle {α : Type} (l : List α) : Except String (Option α) :=
  match l with
  | [] => .ok none
  | [a] => .ok (some a)
  | _ => .error "multiple rows returned"

/-- Steps 3 of `activatePlanAndUpdateUser` (src/paymentUtils.ts lines 86-92):
the primary plan derived from the plan names of all active subscriptions. -/
def resolvePrimaryPlan (allActivePlans : List String) : String :=
  if allActivePlans.any (fun p => p == "pro") then "pro"
  else if allActivePlans.any (fun p => p == "hobbyist") then "hobbyist"
  else "free"

/-- `activatePlanAndUpdateUser` from src/paymentUtils.ts: load the current row,
no-op when already active with the same reference, fail on an active row with a
different reference, otherwise transition the row to `active`, resolve the
primary plan over all active rows and rewrite the user's metadata (granting the
hobbyist credit only when activating from a non-active state, and deleting the
balance for pro). -/
def activatePlanAndUpdateUser (db : DB) (userId : String) (subscription : Subscription) :
    Except String Unit × DB :=
  match findSubById db subscription.id with
  | none => (.error "Subscription not found", db)
  | some currentSub =>
    if currentSub.status == "active" && currentSub.dodo_subscription_id.isSome
        && subscription.dodo_subscription_id.isSome
        && currentSub.dodo_subscription_id == subscription.dodo_subscription_id then
      (.ok (), db)
    else if currentSub.status == "active" && currentSub.dodo_subscription_id.isSome
        && subscription.dodo_subscription_id.isSome
        && currentSub.dodo_subscription_id != subscription.dodo_subscription_id then
      (.error "Activation conflict: subscription already active with a different reference id", db)
    else
      let newRef := subscription.dodo_subscription_id.orElse
        (fun _ => currentSub.dodo_subscription_id)
      let db1 := updateSubs db (fun s => s.id == subscription.id)
        (fun s => { s with status := "active", dodo_subscription_id := newRef })
      let currentUserData := getUserMeta db1 userId
      let otherActiveSubs := db1.subs.filter
        (fun s => s.user_id == userId && s.status == "active" && s.id != subscription.id)
      let allActivePlans := otherActiveSubs.map (fun s => s.plan_name) ++ [subscription.plan_name]
      let newPrimaryPlan := resolvePrimaryPlan allActivePlans
      let base : UserMetadata := currentUserData.getD {}
      let wasActive := currentSub.status == "active"
      let newMetadata : UserMetadata :=
        if subscription.plan_name == "hobbyist" && !wasActive then
          { base with
            plan := some newPrimaryPlan
            generation_balance := some (base.generation_balance.getD 0 + HOBBYIST_GENERATION_LIMIT) }
        else if subscription.plan_name == "pro" then
          { base with plan := some newPrimaryPlan, generation_balance := none }
        else
          { base with plan := some newPrimaryPlan }
      (.ok (), setUserMeta db1 userId newMetadata)

/-- The `metadata` object attached to a provider payment event. -/
structure EventMetadata where
  user_id : Option String := none
  subscription_id : Option String := none
  plan_name : Option String := none
deriving Repr, DecidableEq

/-- The provider payload `event.data.object`, projected to the fields the
processor reads. -/
structure DodoObject where
  id : Option String := none
  payment_id : Option String := none
  payment_intent : Option String := none
  subscription : Option String := none
  subscription_id : Option String := none
  metadata : Option EventMetadata := none
deriving Repr, DecidableEq

/-- A provider webhook event. -/
structure Event where
  type : String
  object : DodoObject
deriving Repr, DecidableEq

/-- The `payment.succeeded` branch of `processWebhookEvent`
(src/controllers, part_002 lines 16-75): resolve metadata, load the pending
row, canonicalize the provider reference for one-time (hobbyist) or
subscription (pro) payments and delegate to `activatePlanAndUpdateUser`.
Branches that merely report a failure message without throwing leave the
store untouched and still yield a processed (non-throwing) result. -/
def processPaymentSucceeded (db : DB) (dodoObject : DodoObject) :
    Except String Unit × DB :=
  let md := dodoObject.metadata.getD {}
  match md.user_id, md.subscription_id with
  | some userId, some ourPendingSubId =>
    match findSubById db ourPendingSubId with
    | none => (.ok (), db)
    | some pendingSub =>
      if md.plan_name == some "hobbyist" then
        let referenceId := (dodoObject.payment_id.orElse
          (fun _ => dodoObject.payment_intent)).orElse (fun _ => dodoObject.id)
        activatePlanAndUpdateUser db userId
          { pendingSub with dodo_subscription_id := referenceId }
      else if md.plan_name == some "pro" then
        match dodoObject.subscription.orElse (fun _ => dodoObject.subscription_id) with
        | none => (.ok (), db)
        | some dodoSubscriptionId =>
          activatePlanAndUpdateUser db userId
            { pendingSub with dodo_subscription_id := some dodoSubscriptionId }
      else (.ok (), db)
  | _, _ => (.ok (), db)

/-- The `subscription.cancelled` branch of `processWebhookEvent` (part_002
lines 77-97): set the matched row to `cancelled`; when exactly one row matched
and the user has no other active row, rewrite the profile to the free plan
with a zero balance. -/
def processSubscriptionCancelled (db : DB) (dodoObject : DodoObject) :
    Except String Unit × DB :=
  let matched := db.subs.filter
    (fun s => dodoObject.id.isSome && s.dodo_subscription_id == dodoObject.id)
  let db1 := updateSubs db
    (fun s => dodoObject.id.isSome && s.dodo_subscription_id == dodoObject.id)
    (fun s => { s with status := "cancelled" })
  match matched with
  | [cancelledSub] =>
    let otherActiveSubs := db1.subs.filter
      (fun t => t.user_id == cancelledSub.user_id && t.status == "active")
    if otherActiveSubs.isEmpty then
      let oldUser := (getUserMeta db1 cancelledSub.user_id).getD {}
      (.ok (), setUserMeta db1 cancelledSub.user_id
        { oldUser with plan := some "free", generation_balance := some 0 })
    else (.ok (), db1)
  | _ => (.ok (), db1)

/-- The `payment.failed` branch of `processWebhookEvent` (part_002 lines
99-102): mark the row matched by reference id as `past_due`. -/
def processPaymentFailed (db : DB) (dodoObject : DodoObject) :
    Except String Unit × DB :=
  (.ok (), updateSubs db
    (fun s => dodoObject.subscription.isSome && s.dodo_subscription_id == dodoObject.subscription)
    (fun s => { s with status := "past_due" }))

/-- The `subscription.expired` branch of `processWebhookEvent` (part_002 lines
104-135): like cancellation, with target status `expired`. -/
def processSubscriptionExpired (db : DB) (dodoObject : DodoObject) :
    Except String Unit × DB :=
  let matched := db.subs.filter
    (fun s => dodoObject.id.isSome && s.dodo_subscription_id == dodoObject.id)
  let db1 := updateSubs db
    (fun s => dodoObject.id.isSome && s.dodo_subscription_id == dodoObject.id)
    (fun s => { s with status := "expired" })
  match matched with
  | [expiredSub] =>
    let otherActiveSubs := db1.subs.filter
      (fun t => t.user_id == expiredSub.user_id && t.status == "active")
    if otherActiveSubs.isEmpty then
      let oldUser := (getUserMeta db1 expiredSub.user_id).getD {}
      (.ok (), setUserMeta db1 expiredSub.user_id
        { oldUser with plan := some "free", generation_balance := some 0 })
    else (.ok (), db1)
  | _ => (.ok (), db1)

/-- The `subscription.on_hold` branch of `processWebhookEvent` (part_002 lines
137-151): mark the matched row `past_due`. -/
def processSubscriptionOnHold (db : DB) (dodoObject : DodoObject) :
    Except String Unit × DB :=
  (.ok (), updateSubs db
    (fun s => dodoObject.id.isSome && s.dodo_subscription_id == dodoObject.id)
    (fun s => { s with status := "past_due" }))

/-- Milliseconds in the 30-day billing period used by the renewal branch. -/
def THIRTY_DAYS_MS : Nat := 30 * 86400000

/-- The `subscription.renewed` branch of `processWebhookEvent` (part_002 lines
153-180): set the matched row to `active` with `period_ends_at` thirty days
from processing time, then mirror the row's plan into the user's metadata. -/
def processSubscriptionRenewed (db : DB) (dodoObject : DodoObject) (now : Nat) :
    Except String Unit × DB :=
  let newPeriodEnd := now + THIRTY_DAYS_MS
  let matched := db.subs.filter
    (fun s => dodoObject.id.isSome && s.dodo_subscription_id == dodoObject.id)
  let db1 := updateSubs db
    (fun s => dodoObject.id.isSome && s.dodo_subscription_id == dodoObject.id)
    (fun s => { s with status := "active", period_ends_at := some newPeriodEnd })
  match matched with
  | [renewedSub] =>
    let renewedUser := (getUserMeta db1 renewedSub.user_id).getD {}
    (.ok (), setUserMeta db1 renewedSub.user_id
      { renewedUser with plan := some renewedSub.plan_name })
  | _ => (.ok (), db1)

/-- `processWebhookEvent` from part_002 (lines 11-186): dispatch on the event
type; unhandled types are logged and acknowledged. -/
def processWebhookEvent (db : DB) (event : Event) (now : Nat) :
    Except String Unit × DB :=
  if event.type == "payment.succeeded" then processPaymentSucceeded db event.object
  else if event.type == "subscription.cancelled" then processSubscriptionCancelled db event.object
  else if event.type == "payment.failed" then processPaymentFailed db event.object
  else if event.type == "subscription.expired" then processSubscriptionExpired db event.object
  else if event.type == "subscription.on_hold" then processSubscriptionOnHold db event.object
  else if event.type == "subscription.renewed" then processSubscriptionRenewed db event.object now
  else (.ok (), db)

/-- Server configuration rows consulted by the payment controller. -/
structure AppConfig where
  dodo_webhook_secret : Option String := none
  dodo_hobbyist_product_id : Option String := none
  dodo_pro_product_id : Option String := none
deriving Repr, DecidableEq

/-- `handleDodoWebhook` from part_002 (lines 191-216). The HMAC-SHA256
primitive and JSON parsing are abstracted as function parameters: the handler
is defined for every choice of them. A missing signature header, a missing
configured secret (thrown and caught), a signature mismatch (including the
`timingSafeEqual` length exception) and a JSON parse exception all answer 400;
a throwing event processor also answers 400; otherwise the handler answers
200 with the store as rewritten by the processor. -/
def handleDodoWebhook (hmacSha256 : String → String → String)
    (parseJson : String → Option Event) (config : AppConfig)
    (signature : Option String) (rawBody : String) (now : Nat) (db : DB) :
    Nat × DB :=
  match signature with
  | none => (400, db)
  | some sig =>
    match config.dodo_webhook_secret with
    | none => (400, db)
    | some secret =>
      let computedSignature := hmacSha256 secret rawBody
      if sig != computedSignature then (400, db)
      else
        match parseJson rawBody with
        | none => (400, db)
        | some event =>
          match processWebhookEvent db event now with
          | (.ok _, db1) => (200, db1)
          | (.error _, db1) => (400, db1)

/-- The free/hobbyist balance rules of `canUserGenerate` (src/userUtils.ts
lines 86-95): missing plan defaults to free, a missing balance defaults to the
free-tier limit on the free plan and to zero otherwise, and a non-positive
balance denies generation. -/
def freeHobbyistCheck (freshUser : UserMetadata) :
    Bool × Option String × Option Int :=
  let plan := freshUser.plan.getD "free"
  let generationBalance := freshUser.generation_balance.getD
    (if plan == "free" then FREE_GENERATION_LIMIT else 0)
  if generationBalance ≤ 0 then
    (false, some "GENERATION_LIMIT_EXCEEDED", some generationBalance)
  else
    (true, none, some generationBalance)

/-- `canUserGenerate` from src/userUtils.ts (lines 38-96). The result triple
is (allowed, error, generationBalance); a balance of `none` models the
JavaScript `Infinity` returned for pro access. An active pro row whose
`period_ends_at` is strictly past is flipped to `expired` and the check falls
through to the free/hobbyist balance rules. -/
def canUserGenerate (db : DB) (now : Nat) (userId : String) :
    Except String (Bool × Option String × Option Int) × DB :=
  match maybeSingle (db.subs.filter
      (fun s => s.user_id == userId && s.status == "active")) with
  | .error _ => (.error "Could not verify user subscription status.", db)
  | .ok activeSubscription =>
    let step : Option (Bool × Option String × Option Int) × DB :=
      match activeSubscription with
      | some s =>
        if s.plan_name == "pro" then
          match s.period_ends_at with
          | some periodEnd =>
            if now > periodEnd then
              (none, updateSubs db (fun r => r.id == s.id)
                (fun r => { r with status := "expired" }))
            else (some (true, none, none), db)
          | none => (some (true, none, none), db)
        else (none, db)
      | none => (none, db)
    match step with
    | (some result, db1) => (.ok result, db1)
    | (none, db1) =>
      match getUserMeta db1 userId with
      | none => (.error "Could not verify user generation status.", db1)
      | some freshUser => (.ok (freeHobbyistCheck freshUser), db1)

/-- The decrement tail of `consumeGenerationCredit` (src/userUtils.ts lines
117-139): re-fetch the user, default a missing balance exactly as
`canUserGenerate` does, floor the decremented balance at zero and write it
back into the user's metadata. -/
def consumeGenerationCreditDecrement (db : DB) (userId : String) :
    Except String (Option Int) × DB :=
  match getUserMeta db userId with
  | none => (.error "Could not verify user generation status before consuming credit.", db)
  | some freshUser =>
    let plan := freshUser.plan.getD "free"
    let currentBalance := freshUser.generation_balance.getD
      (if plan == "free" then FREE_GENERATION_LIMIT else 0)
    let newBalance := max 0 (currentBalance - 1)
    (.ok (some newBalance),
      setUserMeta db userId { freshUser with generation_balance := some newBalance })

/-- `consumeGenerationCredit` from src/userUtils.ts (lines 104-140). The
active-subscription lookup discards the `maybeSingle` error (the source
destructures only `data`), a single active pro row short-circuits with `null`,
and otherwise the balance is decremented, floored at zero, and written back. -/
def consumeGenerationCredit (db : DB) (userId : String) :
    Except String (Option Int) × DB :=
  let activeSubscription := (maybeSingle (db.subs.filter
    (fun s => s.user_id == userId && s.status == "active"))).toOption.join
  match activeSubscription with
  | some s =>
    if s.plan_name == "pro" then (.ok none, db)
    else consumeGenerationCreditDecrement db userId
  | none => consumeGenerationCreditDecrement db userId

/-- The stacked source contains two revisions of the payment controller; the
unnamed part_003 revision carries the plan-hierarchy guard. This models its
lookup `planPriority[p] || 0` over the map with pro 2, hobbyist 1, free 0. -/
def planPriorityOr0 (p : String) : Nat :=
  if p == "pro" then 2 else if p == "hobbyist" then 1 else 0

/-- The `reduce` over plan names used by part_003 (lines 229-231 and 160-162):
starting from free, keep the first plan of strictly higher priority. -/
def bestPlanReduce (plans : List String) : String :=
  plans.foldl
    (fun best current =>
      if planPriorityOr0 current > planPriorityOr0 best then current else best)
    "free"

/-- JavaScript `toLowerCase()`: per-character lowercasing of the string. -/
def toLowerCase (s : String) : String := ⟨s.data.map Char.toLower⟩

/-- `createCheckoutSession` from the part_003 revision of the payment
controller (lines 202-331): authenticate, validate parameters, enforce the
plan hierarchy against the user's active rows (409 on violation), reject a
duplicate pending/active subscription-mode checkout (409), and otherwise
insert a pending row for subscription mode before asking the provider for a
session. The provider interaction and the customer bookkeeping that follow
the insert touch neither the subscriptions rows nor the plan/balance metadata
modelled here; the provider is assumed to answer, with `newSubId` the
database-assigned row id and `sessionId` the provider session. -/
def createCheckoutSession_p003 (db : DB) (user : Option String)
    (productId planName mode : Option String) (newSubId : String) :
    Nat × DB :=
  match user with
  | none => (401, db)
  | some uid =>
    match productId, planName, mode with
    | some _, some pn, some md =>
      let planToBuy := toLowerCase pn
      let activeSubs := db.subs.filter
        (fun s => s.user_id == uid && s.status == "active")
      let bestCurrentPlan := bestPlanReduce (activeSubs.map (fun s => s.plan_name))
      if planPriorityOr0 planToBuy ≤ planPriorityOr0 bestCurrentPlan then
        (409, db)
      else if md == "subscription" then
        let existingSubscription := db.subs.filter
          (fun s => s.user_id == uid && s.plan_name == planToBuy
            && (s.status == "active" || s.status == "pending"))
        if !existingSubscription.isEmpty then (409, db)
        else
          (200, { db with subs := db.subs ++
            [{ id := newSubId, user_id := uid, plan_name := planToBuy,
               status := "pending" }] })
      else (200, db)
    | _, _, _ => (400, db)

/-- `createCheckoutSession` from the part_002 revision of the payment
controller (lines 218-273): authenticate, read `plan` from the body, map
`one_time` to a hobbyist one-time payment and anything else to a pro
subscription, insert a pending row unconditionally, create the provider
session and persist its id on the row. No hierarchy or duplicate check is
performed. `newSubId` is the database-assigned row id and `sessionId` the
provider session id; the provider is assumed to answer. -/
def createCheckoutSession_p002 (config : AppConfig) (db : DB)
    (user : Option String) (planId : Option String)
    (newSubId sessionId : String) : Nat × DB :=
  match user with
  | none => (401, db)
  | some uid =>
    match planId with
    | none => (400, db)
    | some pid =>
      let planName := if pid == "one_time" then "hobbyist" else "pro"
      let productId := if pid == "one_time" then config.dodo_hobbyist_product_id
        else config.dodo_pro_product_id
      match productId with
      | none => (500, db)
      | some _ =>
        let db1 : DB := { db with subs := db.subs ++
          [{ id := newSubId, user_id := uid, plan_name := planName,
             status := "pending" }] }
        let db2 := updateSubs db1 (fun s => s.id == newSubId)
          (fun s => { s with dodo_session_id := some sessionId })
        (200, db2)

/-! Claim theorems. -/

/-- C1: activation is idempotent — when the stored row is already `active`
with a reference id equal to the incoming activation's reference id,
`activatePlanAndUpdateUser` succeeds as a no-op: the subscription row and the
user's profile metadata are left exactly as they were, so a duplicate
delivery of the same payment-succeeded confirmation grants the hobbyist
credit exactly once. -/
theorem activation_idempotent_same_reference (db : DB) (userId : String)
    (subscription currentSub : Subscription) (r : String)
    (hfind : findSubById db subscription.id = some currentSub)
    (hstatus : currentSub.status = "active")
    (hcur : currentSub.dodo_subscription_id = some r)
    (hinc : subscription.dodo_subscription_id = some r) :
    activatePlanAndUpdateUser db userId subscription = (.ok (), db) := by
  unfold activatePlanAndUpdateUser
  rw [hfind]
  simp [hstatus, hcur, hinc]

/-- Witness for C1 at a concrete store: a second delivery of reference
`pay_1` for an already-active hobbyist row changes nothing. -/
theorem activation_idempotent_same_reference_witness :
    activatePlanAndUpdateUser
      { subs := [{ id := "s1", user_id := "u1", plan_name := "hobbyist",
                   status := "active", dodo_subscription_id := some "pay_1" }],
        meta := [("u1", { plan := some "hobbyist", generation_balance := some 20 })] }
      "u1"
      { id := "s1", user_id := "u1", plan_name := "hobbyist", status := "active",
        dodo_subscription_id := some "pay_1" } =
      (.ok (),
        { subs := [{ id := "s1", user_id := "u1", plan_name := "hobbyist",
                     status := "active", dodo_subscription_id := some "pay_1" }],
          meta := [("u1", { plan := some "hobbyist", generation_balance := some 20 })] }) :=
  activation_idempotent_same_reference _ _ _ _ "pay_1" rfl rfl rfl rfl

/-- C2: an activation against a row that is already `active` with a different
non-null reference id is rejected as a conflict, and neither the subscription
row nor the user's profile is mutated on the error path. -/
theorem activation_conflict_different_reference (db : DB) (userId : String)
    (subscription currentSub : Subscription) (r1 r2 : String)
    (hfind : findSubById db subscription.id = some currentSub)
    (hstatus : currentSub.status = "active")
    (hcur : currentSub.dodo_subscription_id = some r1)
    (hinc : subscription.dodo_subscription_id = some r2)
    (hne : r1 ≠ r2) :
    activatePlanAndUpdateUser db userId subscription =
      (.error "Activation conflict: subscription already active with a different reference id",
        db) := by
  unfold activatePlanAndUpdateUser
  rw [hfind]
  simp [hstatus, hcur, hinc, hne]

/-- Witness for C2: a second activation with reference `pay_2` against a row
activated under `pay_1` fails and leaves the store as set by the first. -/
theorem activation_conflict_different_reference_witness :
    activatePlanAndUpdateUser
      { subs := [{ id := "s1", user_id := "u1", plan_name := "hobbyist",
                   status := "active", dodo_subscription_id := some "pay_1" }],
        meta := [("u1", { plan := some "hobbyist", generation_balance := some 20 })] }
      "u1"
      { id := "s1", user_id := "u1", plan_name := "hobbyist", status := "active",
        dodo_subscription_id := some "pay_2" } =
      (.error "Activation conflict: subscription already active with a different reference id",
        { subs := [{ id := "s1", user_id := "u1", plan_name := "hobbyist",
                     status := "active", dodo_subscription_id := some "pay_1" }],
          meta := [("u1", { plan := some "hobbyist", generation_balance := some 20 })] }) :=
  activation_conflict_different_reference _ _ _ _ "pay_1" "pay_2" rfl rfl rfl rfl
    (by decide)

/-! Plan-resolver lemmas. -/

theorem planPriorityOr0_le_two (p : String) : planPriorityOr0 p ≤ 2 := by
  unfold planPriorityOr0
  split_ifs <;> omega

theorem planPriorityOr0_eq_two_iff (p : String) : planPriorityOr0 p = 2 ↔ p = "pro" := by
  unfold planPriorityOr0
  split_ifs with h1 h2 <;> simp_all

theorem planPriorityOr0_eq_one_iff (p : String) : planPriorityOr0 p = 1 ↔ p = "hobbyist" := by
  unfold planPriorityOr0
  split_ifs with h1 h2 <;> simp_all

theorem planPriorityOr0_eq_zero (p : String) (h1 : p ≠ "pro") (h2 : p ≠ "hobbyist") :
    planPriorityOr0 p = 0 := by
  unfold planPriorityOr0
  split_ifs with g1 g2 <;> simp_all

theorem bestPlanReduce_go_pro : ∀ (l : List String) (acc : String),
    acc = "pro" ∨ "pro" ∈ l →
    l.foldl (fun best current =>
      if planPriorityOr0 current > planPriorityOr0 best then current else best) acc = "pro"
  | [], acc, h => by
    rcases h with h | h
    · simpa using h
    · simp at h
  | a :: t, acc, h => by
    rw [List.foldl_cons]
    rcases h with h | h
    · subst h
      have hle := planPriorityOr0_le_two a
      have : ¬ (planPriorityOr0 a > planPriorityOr0 "pro") := by
        have : planPriorityOr0 "pro" = 2 := by decide
        omega
      rw [if_neg this]
      exact bestPlanReduce_go_pro t "pro" (Or.inl rfl)
    · rcases List.mem_cons.mp h with ha | ht
      · by_cases hgt : planPriorityOr0 a > planPriorityOr0 acc
        · rw [if_pos hgt]
          exact bestPlanReduce_go_pro t a (Or.inl ha.symm)
        · rw [if_neg hgt]
          have hacc : planPriorityOr0 acc = 2 := by
            have h2 : planPriorityOr0 a = 2 := (planPriorityOr0_eq_two_iff a).mpr ha.symm
            have := planPriorityOr0_le_two acc
            omega
          exact bestPlanReduce_go_pro t acc (Or.inl ((planPriorityOr0_eq_two_iff acc).mp hacc))
      · exact bestPlanReduce_go_pro t _ (Or.inr ht)

theorem bestPlanReduce_go_hobbyist : ∀ (l : List String) (acc : String),
    "pro" ∉ l → planPriorityOr0 acc ≤ 1 →
    acc = "hobbyist" ∨ "hobbyist" ∈ l →
    l.foldl (fun best current =>
      if planPriorityOr0 current > planPriorityOr0 best then current else best)
      acc = "hobbyist"
  | [], acc, _, _, h => by
    rcases h with h | h
    · simpa using h
    · simp at h
  | a :: t, acc, hnp, hle, h => by
    rw [List.foldl_cons]
    have hnpa : a ≠ "pro" := fun hh => hnp (hh ▸ List.mem_cons_self a t)
    have hnpt : "pro" ∉ t := fun hh => hnp (List.mem_cons_of_mem a hh)
    have hlea : planPriorityOr0 a ≤ 1 := by
      have := planPriorityOr0_le_two a
      rcases Nat.lt_or_ge (planPriorityOr0 a) 2 with hlt | hge
      · omega
      · exact absurd ((planPriorityOr0_eq_two_iff a).mp (by omega)) hnpa
    rcases h with h | h
    · subst h
      have hacc1 : planPriorityOr0 "hobbyist" = 1 := by decide
      have : ¬ (planPriorityOr0 a > planPriorityOr0 "hobbyist") := by omega
      rw [if_neg this]
      exact bestPlanReduce_go_hobbyist t "hobbyist" hnpt (by omega) (Or.inl rfl)
    · rcases List.mem_cons.mp h with ha | ht
      · by_cases hgt : planPriorityOr0 a > planPriorityOr0 acc
        · rw [if_pos hgt]
          exact bestPlanReduce_go_hobbyist t a hnpt hlea (Or.inl ha.symm)
        · rw [if_neg hgt]
          have h1 : planPriorityOr0 a = 1 := (planPriorityOr0_eq_one_iff a).mpr ha.symm
          have hacc : planPriorityOr0 acc = 1 := by omega
          exact bestPlanReduce_go_hobbyist t acc hnpt hle
            (Or.inl ((planPriorityOr0_eq_one_iff acc).mp hacc))
      · exact bestPlanReduce_go_hobbyist t _ hnpt
          (by by_cases hgt : planPriorityOr0 a > planPriorityOr0 acc
              · rw [if_pos hgt]; exact hlea
              · rw [if_neg hgt]; exact hle)
          (Or.inr ht)

theorem bestPlanReduce_go_zero : ∀ (l : List String) (acc : String),
    (∀ x ∈ l, planPriorityOr0 x = 0) →
    l.foldl (fun best current =>
      if planPriorityOr0 current > planPriorityOr0 best then current else best) acc = acc
  | [], _, _ => rfl
  | a :: t, acc, h => by
    rw [List.foldl_cons]
    have ha : planPriorityOr0 a = 0 := h a (List.mem_cons_self a t)
    have : ¬ (planPriorityOr0 a > planPriorityOr0 acc) := by omega
    rw [if_neg this]
    exact bestPlanReduce_go_zero t acc (fun x hx => h x (List.mem_cons_of_mem a hx))

theorem resolvePrimaryPlan_eq_spec (l : List String) :
    resolvePrimaryPlan l =
      if "pro" ∈ l then "pro" else if "hobbyist" ∈ l then "hobbyist" else "free" := by
  by_cases hp : "pro" ∈ l <;> by_cases hh : "hobbyist" ∈ l <;>
    simp [resolvePrimaryPlan, hp, hh, List.any_eq_true]

theorem bestPlanReduce_eq_resolvePrimaryPlan (l : List String) :
    bestPlanReduce l = resolvePrimaryPlan l := by
  rw [resolvePrimaryPlan_eq_spec]
  by_cases hp : "pro" ∈ l
  · rw [if_pos hp]
    exact bestPlanReduce_go_pro l "free" (Or.inr hp)
  · rw [if_neg hp]
    by_cases hh : "hobbyist" ∈ l
    · rw [if_pos hh]
      exact bestPlanReduce_go_hobbyist l "free" hp (by decide) (Or.inr hh)
    · rw [if_neg hh]
      exact bestPlanReduce_go_zero l "free" (fun x hx =>
        planPriorityOr0_eq_zero x (fun e => hp (e ▸ hx)) (fun e => hh (e ▸ hx)))

/-- C5: the Plan Resolver is a pure function of the set of active plan names:
it returns pro when any active record is pro, else hobbyist when any is
hobbyist, else free (free on the empty set); the result is invariant under
reordering of the records; and the `reduce`-based variant of the resolver in
the part_003 controller computes the same function. -/
theorem plan_resolver_priority_order_independent (l l2 : List String)
    (h : l.Perm l2) :
    resolvePrimaryPlan l =
      (if "pro" ∈ l then "pro" else if "hobbyist" ∈ l then "hobbyist" else "free")
    ∧ resolvePrimaryPlan l = resolvePrimaryPlan l2
    ∧ bestPlanReduce l = resolvePrimaryPlan l := by
  refine ⟨resolvePrimaryPlan_eq_spec l, ?_, bestPlanReduce_eq_resolvePrimaryPlan l⟩
  rw [resolvePrimaryPlan_eq_spec, resolvePrimaryPlan_eq_spec]
  simp only [h.mem_iff]

/-- Witness for C5: resolve over hobbyist and pro gives pro either way round,
matching the reduce variant. -/
theorem plan_resolver_priority_order_independent_witness :
    (["hobbyist", "pro"] : List String).Perm ["pro", "hobbyist"]
    ∧ (resolvePrimaryPlan ["hobbyist", "pro"] =
        (if "pro" ∈ (["hobbyist", "pro"] : List String) then "pro"
         else if "hobbyist" ∈ (["hobbyist", "pro"] : List String) then "hobbyist" else "free")
      ∧ resolvePrimaryPlan ["hobbyist", "pro"] = resolvePrimaryPlan ["pro", "hobbyist"]
      ∧ bestPlanReduce ["hobbyist", "pro"] = resolvePrimaryPlan ["hobbyist", "pro"]) :=
  ⟨by decide, plan_resolver_priority_order_independent _ _ (by decide)⟩

/-- C4: the webhook handler fails closed. Whenever the configured secret is
missing, the signature header is missing, or the supplied signature differs
from the HMAC-SHA256 of the raw body, the handler answers a client error (400)
with the store untouched — uniformly in the JSON parser and hence before and
independently of any parsing or event dispatch. -/
theorem webhook_fails_closed (hmacSha256 : String → String → String)
    (parseJson : String → Option Event) (config : AppConfig)
    (signature : Option String) (rawBody : String) (now : Nat) (db : DB)
    (h : config.dodo_webhook_secret = none ∨ signature = none ∨
      ∀ s v, config.dodo_webhook_secret = some s → signature = some v →
        v ≠ hmacSha256 s rawBody) :
    handleDodoWebhook hmacSha256 parseJson config signature rawBody now db = (400, db) := by
  unfold handleDodoWebhook
  rcases h with hsec | hsig | hne
  · cases signature with
    | none => rfl
    | some v => rw [hsec]
  · rw [hsig]
  · cases signature with
    | none => rfl
    | some v =>
      cases hc : config.dodo_webhook_secret with
      | none => rfl
      | some s =>
        have : v ≠ hmacSha256 s rawBody := hne s v hc rfl
        simp [this]

/-- Witness for C4: a tampered signature is rejected with the store intact,
for a concrete keyed-concatenation stand-in for the HMAC primitive. -/
theorem webhook_fails_closed_witness :
    handleDodoWebhook (fun s b => s ++ b) (fun _ => none)
      { dodo_webhook_secret := some "sec" } (some "bad") "body" 0
      { subs := [], meta := [] } = (400, { subs := [], meta := [] }) :=
  webhook_fails_closed (fun s b => s ++ b) (fun _ => none)
    { dodo_webhook_secret := some "sec" } (some "bad") "body" 0
    { subs := [], meta := [] }
    (Or.inr (Or.inr (by intro s v hs hv; injection hs with hs; injection hv with hv; subst hs; subst hv; decide)))

/-! Store lemmas. -/

theorem find?_map_pres (p : Subscription → Bool) (f : Subscription → Subscription)
    (hid : ∀ s, p s → (f s).id = s.id) (i : String) :
    ∀ l : List Subscription,
      (l.map (fun s => if p s then f s else s)).find? (fun s => s.id == i) =
        (l.find? (fun s => s.id == i)).map (fun s => if p s then f s else s)
  | [] => rfl
  | a :: t => by
    have hida : (if p a then f a else a).id = a.id := by
      by_cases hpa : p a
      · rw [if_pos hpa]; exact hid a hpa
      · rw [if_neg hpa]
    simp only [List.map_cons, List.find?]
    rw [hida]
    cases hcond : (a.id == i)
    · simpa using find?_map_pres p f hid i t
    · simp

theorem findSubById_updateSubs (db : DB) (p : Subscription → Bool)
    (f : Subscription → Subscription) (hid : ∀ s, p s → (f s).id = s.id) (i : String) :
    findSubById (updateSubs db p f) i =
      (findSubById db i).map (fun s => if p s then f s else s) :=
  find?_map_pres p f hid i db.subs

theorem findSubById_setUserMeta (db : DB) (u : String) (m : UserMetadata) (i : String) :
    findSubById (setUserMeta db u m) i = findSubById db i := rfl

theorem meta_updateSubs (db : DB) (p : Subscription → Bool)
    (f : Subscription → Subscription) : (updateSubs db p f).meta = db.meta := rfl

theorem getUserMeta_updateSubs (db : DB) (p : Subscription → Bool)
    (f : Subscription → Subscription) (u : String) :
    getUserMeta (updateSubs db p f) u = getUserMeta db u := rfl

/-! Concrete stores and events for the C3 counterexample trace: a pending
hobbyist checkout is activated under provider reference pay_A, a payment
failure moves the row to past_due, and a second payment-succeeded delivery
carries the different reference pay_B. -/

def overwriteDb0 : DB :=
  { subs := [{ id := "s1", user_id := "u1", plan_name := "hobbyist", status := "pending" }],
    meta := [("u1", {})] }

def overwriteEv1 : Event :=
  { type := "payment.succeeded",
    object := { payment_id := some "pay_A",
                metadata := some { user_id := some "u1", subscription_id := some "s1",
                                   plan_name := some "hobbyist" } } }

def overwriteEv2 : Event :=
  { type := "payment.failed", object := { subscription := some "pay_A" } }

def overwriteEv3 : Event :=
  { type := "payment.succeeded",
    object := { payment_id := some "pay_B",
                metadata := some { user_id := some "u1", subscription_id := some "s1",
                                   plan_name := some "hobbyist" } } }

def overwriteDb2 : DB :=
  (processWebhookEvent (processWebhookEvent overwriteDb0 overwriteEv1 0).2 overwriteEv2 0).2

/-- Counterexample to C3 as stated: the guard against overwriting a non-null
provider reference only applies to rows in status `active`. In a state
reached by the Event Processor itself (pending checkout, activation under
pay_A, payment failure to past_due), a further payment-succeeded delivery
carrying the different reference pay_B succeeds without any conflict and
silently rewrites the stored non-null reference. -/
theorem reference_overwrite_counterexample :
    (findSubById overwriteDb2 "s1").map
      (fun s => (s.status, s.dodo_subscription_id)) = some ("past_due", some "pay_A")
    ∧ (processWebhookEvent overwriteDb2 overwriteEv3 0).1 = .ok ()
    ∧ (findSubById (processWebhookEvent overwriteDb2 overwriteEv3 0).2 "s1").map
        (fun s => s.dodo_subscription_id) = some (some "pay_B")
    ∧ ("pay_A" : String) ≠ "pay_B" :=
  ⟨rfl, rfl, rfl, by decide⟩

/-- C3 amended: the no-overwrite guarantee holds for rows whose current
status is `active` — any activation against an `active` row holding a
non-null reference either fails with an explicit error (leaving the store
untouched) or succeeds preserving that reference; for non-active statuses
the reference can be replaced, as the counterexample shows. -/
theorem active_reference_never_silently_overwritten (db : DB) (userId : String)
    (subscription currentSub : Subscription) (r : String)
    (hfind : findSubById db subscription.id = some currentSub)
    (hstatus : currentSub.status = "active")
    (hcur : currentSub.dodo_subscription_id = some r) :
    (∃ e, activatePlanAndUpdateUser db userId subscription = (.error e, db)) ∨
    ((activatePlanAndUpdateUser db userId subscription).1 = .ok ()
      ∧ (findSubById (activatePlanAndUpdateUser db userId subscription).2
          subscription.id).map (fun s => s.dodo_subscription_id) = some (some r)) := by
  have h2 := hfind
  unfold findSubById at h2
  have hp0 := List.find?_some h2
  have hp : (currentSub.id == subscription.id) = true := hp0
  cases hinc : subscription.dodo_subscription_id with
  | none =>
    right
    constructor
    · unfold activatePlanAndUpdateUser
      rw [hfind]
      simp [hinc, hstatus, hcur]
    · unfold activatePlanAndUpdateUser
      rw [hfind]
      simp only [hinc, hstatus, hcur, Option.isSome_none, Option.isSome_some,
        Bool.and_false, Bool.false_and, Bool.and_true, Bool.true_and,
        beq_self_eq_true, Bool.false_eq_true, if_false]
      rw [findSubById_setUserMeta,
        findSubById_updateSubs db (fun s => s.id == subscription.id)
          (fun s => { s with status := "active", dodo_subscription_id := Option.orElse none fun x => some r })
          (fun s _ => rfl),
        hfind, Option.map_some', Option.map_some', if_pos hp]
      rfl
  | some r2 =>
    by_cases he : r2 = r
    · subst he
      right
      have hnoop := activation_idempotent_same_reference db userId subscription currentSub
        r2 hfind hstatus (by rw [hcur]) hinc
      rw [hnoop]
      exact ⟨rfl, by rw [hfind]; simp [hcur]⟩
    · left
      exact ⟨"Activation conflict: subscription already active with a different reference id",
        activation_conflict_different_reference db userId subscription currentSub r r2
          hfind hstatus hcur hinc (fun hh => he hh.symm)⟩

/-- Witness for the amended C3 at a concrete store: an activation with a
different reference against an `active` row takes the explicit-failure arm. -/
theorem active_reference_never_silently_overwritten_witness :
    (∃ e, activatePlanAndUpdateUser
      { subs := [{ id := "s1", user_id := "u1", plan_name := "hobbyist",
                   status := "active", dodo_subscription_id := some "pay_1" }],
        meta := [("u1", {})] } "u1"
      { id := "s1", user_id := "u1", plan_name := "hobbyist", status := "active",
        dodo_subscription_id := some "pay_2" } =
      (.error e,
        { subs := [{ id := "s1", user_id := "u1", plan_name := "hobbyist",
                     status := "active", dodo_subscription_id := some "pay_1" }],
          meta := [("u1", {})] })) ∨
    ((activatePlanAndUpdateUser
      { subs := [{ id := "s1", user_id := "u1", plan_name := "hobbyist",
                   status := "active", dodo_subscription_id := some "pay_1" }],
        meta := [("u1", {})] } "u1"
      { id := "s1", user_id := "u1", plan_name := "hobbyist", status := "active",
        dodo_subscription_id := some "pay_2" }).1 = .ok ()
      ∧ (findSubById (activatePlanAndUpdateUser
          { subs := [{ id := "s1", user_id := "u1", plan_name := "hobbyist",
                       status := "active", dodo_subscription_id := some "pay_1" }],
            meta := [("u1", {})] } "u1"
          { id := "s1", user_id := "u1", plan_name := "hobbyist", status := "active",
            dodo_subscription_id := some "pay_2" }).2 "s1").map
          (fun s => s.dodo_subscription_id) = some (some "pay_1")) :=
  active_reference_never_silently_overwritten _ _ _ _ "pay_1" rfl rfl rfl

theorem find?_set_self (u : String) (m : UserMetadata) :
    ∀ l : List (String × UserMetadata),
      (l.find? (fun p => p.1 == u)).isSome = true →
      (l.map (fun p => if p.1 == u then (u, m) else p)).find? (fun p => p.1 == u) =
        some (u, m)
  | [], h => by simp [List.find?] at h
  | b :: t, h => by
    simp only [List.find?] at h
    simp only [List.map_cons, List.find?]
    cases hb : (b.1 == u) with
    | true => simp [hb]
    | false =>
      simp only [hb, Bool.false_eq_true, if_false] at h ⊢
      exact find?_set_self u m t h

theorem getUserMeta_setUserMeta_self (db : DB) (u : String) (m : UserMetadata) :
    getUserMeta (setUserMeta db u m) u = some m := by
  unfold getUserMeta setUserMeta
  by_cases h : (db.meta.find? (fun p => p.1 == u)).isSome = true
  · simp only [h, if_true]
    rw [find?_set_self u m db.meta h]
    rfl
  · rw [if_neg h]
    have hnone : db.meta.find? (fun p => p.1 == u) = none := by
      cases hf : db.meta.find? (fun p => p.1 == u) with
      | none => rfl
      | some a => rw [hf] at h; simp at h
    rw [List.find?_append, hnone]
    simp [List.find?]

/-- Counterexample to C6 as stated: the later (part_002) revision of the
checkout endpoint performs no plan-hierarchy check at all. A user holding an
active pro subscription who requests another pro checkout is not rejected
with a conflict: the request succeeds and a new pending pro row is created. -/
theorem checkout_no_hierarchy_check_counterexample :
    createCheckoutSession_p002 { dodo_pro_product_id := some "prod_pro" }
      { subs := [{ id := "s1", user_id := "u1", plan_name := "pro", status := "active",
                   dodo_subscription_id := some "dodo_1" }],
        meta := [("u1", { plan := some "pro" })] }
      (some "u1") (some "pro_monthly") "s2" "sess_9" =
      (200,
        { subs := [{ id := "s1", user_id := "u1", plan_name := "pro", status := "active",
                     dodo_subscription_id := some "dodo_1" },
                   { id := "s2", user_id := "u1", plan_name := "pro", status := "pending",
                     dodo_session_id := some "sess_9" }],
          meta := [("u1", { plan := some "pro" })] })
    ∧ (200 : Nat) ≠ 409 :=
  ⟨rfl, by decide⟩

/-- C6 amended: the plan-hierarchy rejection holds of the part_003 revision of
`createCheckoutSession` — whenever the priority of the plan to buy is at most
the priority of the user's best currently active plan, the request is rejected
with 409 and the store is unchanged, so no pending record is created; the
part_002 revision performs no such check, as the counterexample shows. -/
theorem checkout_hierarchy_reject_p003 (db : DB)
    (uid productId planName mode newSubId : String)
    (hprio : planPriorityOr0 (toLowerCase planName) ≤ planPriorityOr0 (bestPlanReduce
      ((db.subs.filter (fun s => s.user_id == uid && s.status == "active")).map
        (fun s => s.plan_name)))) :
    createCheckoutSession_p003 db (some uid) (some productId) (some planName)
      (some mode) newSubId = (409, db) := by
  unfold createCheckoutSession_p003
  dsimp only
  rw [if_pos hprio]

/-- Witness for the amended C6: a user holding active pro is refused a pro
purchase (and, by the same theorem at plan hobbyist, a hobbyist purchase). -/
theorem checkout_hierarchy_reject_p003_witness :
    createCheckoutSession_p003
      { subs := [{ id := "s1", user_id := "u1", plan_name := "pro", status := "active",
                   dodo_subscription_id := some "dodo_1" }],
        meta := [("u1", { plan := some "pro" })] }
      (some "u1") (some "prod_pro") (some "pro") (some "subscription") "s2" =
      (409,
        { subs := [{ id := "s1", user_id := "u1", plan_name := "pro", status := "active",
                     dodo_subscription_id := some "dodo_1" }],
          meta := [("u1", { plan := some "pro" })] }) :=
  checkout_hierarchy_reject_p003 _ "u1" "prod_pro" "pro" "subscription" "s2" (by decide)

theorem processWebhookEvent_cancelled (db : DB) (ev : Event) (now : Nat)
    (htype : ev.type = "subscription.cancelled") :
    processWebhookEvent db ev now = processSubscriptionCancelled db ev.object := by
  unfold processWebhookEvent
  rw [htype]
  rfl

theorem filter_active_after_cancel_nil (l : List Subscription) (u ref : String)
    (honly : ∀ t ∈ l, t.user_id = u → t.status = "active" →
      t.dodo_subscription_id = some ref) :
    (l.map (fun x => if x.dodo_subscription_id == some ref
        then { x with status := "cancelled" } else x)).filter
      (fun t => t.user_id == u && t.status == "active") = [] := by
  rw [List.filter_eq_nil_iff]
  intro t ht
  rcases List.mem_map.mp ht with ⟨t0, ht0, rfl⟩
  by_cases hp : (t0.dodo_subscription_id == some ref) = true
  · rw [if_pos hp]
    have hca : (("cancelled" : String) == "active") = false := by decide
    simp [hca]
  · rw [if_neg hp]
    intro hcon
    obtain ⟨h1, h2⟩ := Bool.and_eq_true_iff.mp hcon
    exact hp (by rw [honly t0 ht0 (eq_of_beq h1) (eq_of_beq h2)]; exact beq_self_eq_true _)

/-- C7: when a subscription-cancelled event matches exactly the record that is
the user's only active record, the Event Processor sets that record's status
to `cancelled` and rewrites the user's profile to the free plan with the
generation balance reset to zero; when the user holds another active record
not matched by the event, the profile metadata is left untouched. -/
theorem cancellation_downgrades_only_when_last_active (db : DB) (ev : Event)
    (now : Nat) (ref : String) (s : Subscription)
    (htype : ev.type = "subscription.cancelled")
    (hid : ev.object.id = some ref)
    (hmatch : db.subs.filter (fun t => t.dodo_subscription_id == some ref) = [s])
    (hfind : findSubById db s.id = some s) :
    ((∀ t ∈ db.subs, t.user_id = s.user_id → t.status = "active" →
        t.dodo_subscription_id = some ref) →
      findSubById (processWebhookEvent db ev now).2 s.id =
          some { s with status := "cancelled" }
        ∧ getUserMeta (processWebhookEvent db ev now).2 s.user_id =
            some { plan := some "free", generation_balance := some 0 })
    ∧ ((∃ t ∈ db.subs, t.user_id = s.user_id ∧ t.status = "active"
          ∧ t.dodo_subscription_id ≠ some ref) →
        (processWebhookEvent db ev now).1 = .ok ()
          ∧ (processWebhookEvent db ev now).2.meta = db.meta) := by
  have hPs : (s.dodo_subscription_id == some ref) = true := by
    have hsmem : s ∈ db.subs.filter (fun t => t.dodo_subscription_id == some ref) := by
      rw [hmatch]; exact List.mem_cons_self s []
    exact (List.mem_filter.mp hsmem).2
  rw [processWebhookEvent_cancelled db ev now htype]
  unfold processSubscriptionCancelled
  rw [hid]
  simp only [Option.isSome_some, Bool.true_and]
  rw [hmatch]
  dsimp only
  constructor
  · intro honly
    have hempty : ((updateSubs db (fun t => t.dodo_subscription_id == some ref)
        (fun t => { t with status := "cancelled" })).subs.filter
        (fun t => t.user_id == s.user_id && t.status == "active")) = [] :=
      filter_active_after_cancel_nil db.subs s.user_id ref honly
    constructor
    · rw [hempty]
      simp only [List.isEmpty_nil, if_true]
      rw [findSubById_setUserMeta,
        findSubById_updateSubs db (fun t => t.dodo_subscription_id == some ref)
          (fun t => { t with status := "cancelled" }) (fun t _ => rfl),
        hfind, Option.map_some', if_pos hPs]
    · rw [hempty]
      simp only [List.isEmpty_nil, if_true]
      exact getUserMeta_setUserMeta_self _ _ _
  · rintro ⟨t, ht, hu, hact, hne⟩
    have hmem : t ∈ (updateSubs db (fun x => x.dodo_subscription_id == some ref)
        (fun x => { x with status := "cancelled" })).subs.filter
        (fun x => x.user_id == s.user_id && x.status == "active") := by
      apply List.mem_filter.mpr
      constructor
      · have : t ∈ db.subs.map (fun x => if x.dodo_subscription_id == some ref
            then { x with status := "cancelled" } else x) := by
          apply List.mem_map.mpr
          refine ⟨t, ht, ?_⟩
          rw [if_neg (fun hc => hne (eq_of_beq hc))]
        exact this
      · rw [hu, hact]
        simp
    have hnonempty : ((updateSubs db (fun x => x.dodo_subscription_id == some ref)
        (fun x => { x with status := "cancelled" })).subs.filter
        (fun x => x.user_id == s.user_id && x.status == "active")).isEmpty = false :=
      List.isEmpty_eq_false.mpr (List.ne_nil_of_mem hmem)
    rw [hnonempty]
    simp only [Bool.false_eq_true, if_false]
    constructor <;> trivial

/-- Concrete store for the C7 witness: user u1 with a single active pro
record referenced dodo_1. -/
def c7s : Subscription :=
  { id := "s1", user_id := "u1", plan_name := "pro", status := "active",
    dodo_subscription_id := some "dodo_1" }

def c7db : DB := { subs := [c7s], meta := [("u1", { plan := some "pro" })] }

def c7ev : Event :=
  { type := "subscription.cancelled", object := { id := some "dodo_1" } }

/-- Witness for C7 at a concrete store: cancelling the single active pro
record of user u1 flips the record to cancelled and resets the profile to the
free plan with balance zero. -/
theorem cancellation_downgrades_only_when_last_active_witness :
    ((∀ t ∈ c7db.subs, t.user_id = c7s.user_id → t.status = "active" →
        t.dodo_subscription_id = some "dodo_1") →
      findSubById (processWebhookEvent c7db c7ev 0).2 c7s.id =
          some { c7s with status := "cancelled" }
        ∧ getUserMeta (processWebhookEvent c7db c7ev 0).2 c7s.user_id =
            some { plan := some "free", generation_balance := some 0 })
    ∧ ((∃ t ∈ c7db.subs, t.user_id = c7s.user_id ∧ t.status = "active"
          ∧ t.dodo_subscription_id ≠ some "dodo_1") →
        (processWebhookEvent c7db c7ev 0).1 = .ok ()
          ∧ (processWebhookEvent c7db c7ev 0).2.meta = c7db.meta) :=
  cancellation_downgrades_only_when_last_active c7db c7ev 0 "dodo_1" c7s rfl rfl rfl rfl

/-- C8: lazy pro expiry in `canUserGenerate`. For a user whose single active
record is a pro record with a period end: when `now` is strictly past the
period end, the check flips that record to `expired` and returns the result
of the free/hobbyist balance rules on the user's metadata instead of granting
pro access; when the period end has not passed, the check allows generation
with the unlimited (Infinity) balance and changes nothing. -/
theorem lazy_pro_expiry (db : DB) (now : Nat) (userId : String)
    (s : Subscription) (t : Nat) (m : UserMetadata)
    (hrows : db.subs.filter (fun x => x.user_id == userId && x.status == "active") = [s])
    (hplan : s.plan_name = "pro")
    (hperiod : s.period_ends_at = some t)
    (hfind : findSubById db s.id = some s)
    (hmeta : getUserMeta db userId = some m) :
    (now > t →
      findSubById (canUserGenerate db now userId).2 s.id =
          some { s with status := "expired" }
        ∧ (canUserGenerate db now userId).1 = .ok (freeHobbyistCheck m))
    ∧ (¬ now > t →
      canUserGenerate db now userId = (.ok (true, none, none), db)) := by
  constructor
  · intro hgt
    have heq : canUserGenerate db now userId =
        (.ok (freeHobbyistCheck m),
          updateSubs db (fun r => r.id == s.id) (fun r => { r with status := "expired" })) := by
      unfold canUserGenerate
      rw [hrows]
      dsimp only [maybeSingle]
      rw [hplan]
      rw [show (("pro" : String) == "pro") = true from rfl]
      rw [if_pos rfl]
      rw [hperiod]
      dsimp only
      rw [if_pos hgt]
      dsimp only
      rw [getUserMeta_updateSubs, hmeta]
    rw [heq]
    constructor
    · rw [findSubById_updateSubs db (fun r => r.id == s.id)
        (fun r => { r with status := "expired" }) (fun r _ => rfl),
        hfind, Option.map_some', if_pos (beq_self_eq_true s.id)]
    · rfl
  · intro hle
    unfold canUserGenerate
    rw [hrows]
    dsimp only [maybeSingle]
    rw [hplan]
    rw [show (("pro" : String) == "pro") = true from rfl]
    rw [if_pos rfl]
    rw [hperiod]
    dsimp only
    rw [if_neg hle]

/-- Concrete store for the C8 witness: an active pro record whose period
ended at time 100, checked at time 101. -/
def c8s : Subscription :=
  { id := "s1", user_id := "u1", plan_name := "pro", status := "active",
    dodo_subscription_id := some "dodo_1", period_ends_at := some 100 }

def c8db : DB := { subs := [c8s], meta := [("u1", { plan := some "pro" })] }

/-- Witness for C8: at time 101 the expired pro record flips to `expired` and
the user is evaluated under the balance rules (here: denied with balance 0). -/
theorem lazy_pro_expiry_witness :
    (101 > 100 →
      findSubById (canUserGenerate c8db 101 "u1").2 c8s.id =
          some { c8s with status := "expired" }
        ∧ (canUserGenerate c8db 101 "u1").1 =
            .ok (freeHobbyistCheck { plan := some "pro" }))
    ∧ (¬ 101 > 100 →
      canUserGenerate c8db 101 "u1" = (.ok (true, none, none), c8db)) :=
  lazy_pro_expiry c8db 101 "u1" c8s 100 { plan := some "pro" } rfl rfl rfl rfl rfl

theorem processWebhookEvent_renewed (db : DB) (ev : Event) (now : Nat)
    (htype : ev.type = "subscription.renewed") :
    processWebhookEvent db ev now = processSubscriptionRenewed db ev.object now := by
  unfold processWebhookEvent
  rw [htype]
  rfl

/-- Concrete store for the C9 counterexample: a pro record with reference
dodo_9 whose period previously ended at epoch 0, renewed at time 86400000
(one day). -/
def c9s : Subscription :=
  { id := "s1", user_id := "u1", plan_name := "pro", status := "past_due",
    dodo_subscription_id := some "dodo_9", period_ends_at := some 0 }

def c9db : DB := { subs := [c9s], meta := [("u1", { plan := some "pro" })] }

def c9ev : Event :=
  { type := "subscription.renewed", object := { id := some "dodo_9" } }

/-- Counterexample to C9 as stated: processing subscription-renewed at time
86400000 for a record whose period previously ended at 0 stores period end
86400000 + 30 days = 2678400000, not the claimed previous value + 30 days
= 2592000000. The renewal window is measured from processing time, not
extended from the stored value. -/
theorem renewal_period_not_extended_counterexample :
    (findSubById c9db "s1").map (fun s => s.period_ends_at) = some (some 0)
    ∧ (findSubById (processWebhookEvent c9db c9ev 86400000).2 "s1").map
        (fun s => s.period_ends_at) = some (some 2678400000)
    ∧ (2678400000 : Nat) ≠ 0 + THIRTY_DAYS_MS :=
  ⟨rfl, rfl, by decide⟩

/-- C9 amended: on subscription-renewed for the record matched by reference
id, the Event Processor sets the record to `active` with `period_ends_at`
equal to thirty days after the processing time (regardless of the previous
period end), and mirrors the record's plan into the user's profile. -/
theorem renewal_sets_period_from_now (db : DB) (ev : Event) (now : Nat)
    (ref : String) (s : Subscription)
    (htype : ev.type = "subscription.renewed")
    (hid : ev.object.id = some ref)
    (hmatch : db.subs.filter (fun t => t.dodo_subscription_id == some ref) = [s])
    (hfind : findSubById db s.id = some s) :
    findSubById (processWebhookEvent db ev now).2 s.id =
        some { s with status := "active", period_ends_at := some (now + THIRTY_DAYS_MS) }
      ∧ getUserMeta (processWebhookEvent db ev now).2 s.user_id =
          some { (getUserMeta db s.user_id).getD {} with plan := some s.plan_name }
      ∧ (processWebhookEvent db ev now).1 = .ok () := by
  have hPs : (s.dodo_subscription_id == some ref) = true := by
    have hsmem : s ∈ db.subs.filter (fun t => t.dodo_subscription_id == some ref) := by
      rw [hmatch]; exact List.mem_cons_self s []
    exact (List.mem_filter.mp hsmem).2
  rw [processWebhookEvent_renewed db ev now htype]
  unfold processSubscriptionRenewed
  rw [hid]
  simp only [Option.isSome_some, Bool.true_and]
  rw [hmatch]
  dsimp only
  refine ⟨?_, ?_, rfl⟩
  · rw [findSubById_setUserMeta,
      findSubById_updateSubs db (fun t => t.dodo_subscription_id == some ref)
        (fun t => { t with status := "active", period_ends_at := some (now + THIRTY_DAYS_MS) })
        (fun t _ => rfl),
      hfind, Option.map_some', if_pos hPs]
  · exact getUserMeta_setUserMeta_self _ _ _

/-- Witness for the amended C9 at the concrete store: the renewed record ends
active with period end 86400000 + 30 days and the profile mirrors plan pro. -/
theorem renewal_sets_period_from_now_witness :
    findSubById (processWebhookEvent c9db c9ev 86400000).2 c9s.id =
        some { c9s with
               status := "active"
               period_ends_at := some (86400000 + THIRTY_DAYS_MS) }
      ∧ getUserMeta (processWebhookEvent c9db c9ev 86400000).2 c9s.user_id =
          some { (getUserMeta c9db c9s.user_id).getD {} with plan := some c9s.plan_name }
      ∧ (processWebhookEvent c9db c9ev 86400000).1 = .ok () :=
  renewal_sets_period_from_now c9db c9ev 86400000 "dodo_9" c9s rfl rfl rfl rfl

/-- Concrete store for the C10 counterexample: user u1 holds two active rows,
a hobbyist one-time purchase and a pro subscription, with balance 5. -/
def c10db : DB :=
  { subs := [{ id := "s1", user_id := "u1", plan_name := "hobbyist",
               status := "active", dodo_subscription_id := some "pay_1" },
             { id := "s2", user_id := "u1", plan_name := "pro",
               status := "active", dodo_subscription_id := some "dodo_2" }],
    meta := [("u1", { plan := some "pro", generation_balance := some 5 })] }

/-- Counterexample to C10 as stated: `consumeGenerationCredit` destructures
only `data` from the `maybeSingle` lookup, so for a user with two active rows
the multiple-rows error is swallowed, `data` is null, and the pro short-
circuit is skipped: a user holding an active pro subscription is charged a
credit (5 becomes 4) and the profile is written. -/
theorem consume_charges_pro_counterexample :
    c10db.subs.any (fun s => s.user_id == "u1" && s.status == "active"
      && s.plan_name == "pro") = true
    ∧ (consumeGenerationCredit c10db "u1").1 = .ok (some 4)
    ∧ getUserMeta (consumeGenerationCredit c10db "u1").2 "u1" =
        some { plan := some "pro", generation_balance := some 4 }
    ∧ (Except.ok (some 4) : Except String (Option Int)) ≠ .ok none :=
  ⟨rfl, rfl, rfl, fun h => Option.noConfusion (Except.ok.inj h)⟩

/-- C10 amended: `consumeGenerationCredit` never drives a balance negative,
and returns null without any write exactly when the active-row lookup yields
a single pro row; for every other user with a profile (including a pro holder
with several active rows, whose lookup error is discarded) the stored balance
becomes max(0, previous − 1), a missing balance defaulting to the free-tier
limit on plan free and to zero otherwise. -/
theorem consume_credit_floor_and_single_pro (db : DB) (userId : String) :
    (∀ s : Subscription,
      db.subs.filter (fun x => x.user_id == userId && x.status == "active") = [s] →
      s.plan_name = "pro" →
      consumeGenerationCredit db userId = (.ok none, db))
    ∧ (∀ m : UserMetadata, getUserMeta db userId = some m →
        (¬ ∃ s : Subscription,
          db.subs.filter (fun x => x.user_id == userId && x.status == "active") = [s]
            ∧ s.plan_name = "pro") →
        consumeGenerationCredit db userId =
          (.ok (some (max 0 (m.generation_balance.getD
              (if m.plan.getD "free" == "free" then FREE_GENERATION_LIMIT else 0) - 1))),
            setUserMeta db userId { m with generation_balance := some (max 0
              (m.generation_balance.getD (if m.plan.getD "free" == "free"
                then FREE_GENERATION_LIMIT else 0) - 1)) })
          ∧ 0 ≤ max 0 (m.generation_balance.getD (if m.plan.getD "free" == "free"
              then FREE_GENERATION_LIMIT else 0) - 1)) := by
  constructor
  · intro s hfil hpro
    unfold consumeGenerationCredit
    rw [hfil]
    dsimp only [maybeSingle, Except.toOption, Option.join, Option.bind, id]
    rw [hpro]
    rfl
  · intro m hm hnot
    have hdec : consumeGenerationCreditDecrement db userId =
        (.ok (some (max 0 (m.generation_balance.getD
            (if m.plan.getD "free" == "free" then FREE_GENERATION_LIMIT else 0) - 1))),
          setUserMeta db userId { m with generation_balance := some (max 0
            (m.generation_balance.getD (if m.plan.getD "free" == "free"
              then FREE_GENERATION_LIMIT else 0) - 1)) }) := by
      unfold consumeGenerationCreditDecrement
      rw [hm]
    refine ⟨?_, le_max_left 0 _⟩
    unfold consumeGenerationCredit
    rcases hfil : db.subs.filter (fun x => x.user_id == userId && x.status == "active")
      with _ | ⟨a, _ | ⟨b, rest⟩⟩ <;> rw [hfil]
    · dsimp only [maybeSingle, Except.toOption, Option.join, Option.bind, id]
      exact hdec
    · dsimp only [maybeSingle, Except.toOption, Option.join, Option.bind, id]
      have hap : (a.plan_name == "pro") = false := by
        cases hb : (a.plan_name == "pro")
        · rfl
        · exact absurd ⟨a, hfil, eq_of_beq hb⟩ hnot
      rw [hap]
      exact hdec
    · dsimp only [maybeSingle, Except.toOption, Option.join, Option.bind, id]
      exact hdec

/-- Witness for the amended C10: a user whose single active row is pro is not
charged, via the first arm of the theorem at a concrete store. -/
theorem consume_credit_floor_and_single_pro_witness :
    consumeGenerationCredit
      { subs := [{ id := "s2", user_id := "u1", plan_name := "pro",
                   status := "active", dodo_subscription_id := some "dodo_2" }],
        meta := [("u1", { plan := some "pro" })] } "u1" =
      (.ok none,
        { subs := [{ id := "s2", user_id := "u1", plan_name := "pro",
                     status := "active", dodo_subscription_id := some "dodo_2" }],
          meta := [("u1", { plan := some "pro" })] }) :=
  (consume_credit_floor_and_single_pro _ "u1").1
    { id := "s2", user_id := "u1", plan_name := "pro", status := "active",
      dodo_subscription_id := some "dodo_2" } rfl rfl

end CubeAPI
